import Mathlib

/-!
# Verification of the Auto-DJ ranking and harmonic/BPM analysis engine

Shallow embedding of the core of the DJ-Controller-Web repository:
* `AutoDJEngine` (src/public/js/feature-estimator.js): Camelot wheel,
  harmonic compatibility, component scoring, weighted ranking, weights config.
* `HarmonicMixer` (src/public/js/harmonic-mixer.js): BPM band analysis,
  harmonic analysis, transition quality, tips, energy change.
* `FeatureEstimator` (src/public/js/feature-estimator.js): seeded
  deterministic feature estimation.

JavaScript numbers are modelled by `ℚ` (exact rational arithmetic); the
spots where IEEE-754 rounding could in principle differ are noted inline.
JavaScript `null`/`undefined` inputs are modelled by `Option`; the
JS falsy test `!x` on a number is modelled as "`none` or value `0`".
-/

/-- Camelot wheel letter: `A` = minor ring, `B` = major ring. -/
inductive CamelotLetter where
  | A
  | B
deriving DecidableEq, Repr, Fintype

/-- Parsed Camelot key, as produced by `parseCamelot` in the source
(`{number, letter}`); canonical keys have `number ∈ [1,12]`. -/
structure CamelotKey where
  number : ℕ
  letter : CamelotLetter
deriving DecidableEq, Repr

/-- Embedding of `toCamelot(key, mode)` from feature-estimator.js: exact table
lookup of `CAMELOT_WHEEL` over the 24 (key, mode) pairs, `null` otherwise. -/
def toCamelot (key mode : Option ℕ) : Option CamelotKey :=
  match key, mode with
  | some k, some m =>
    match k, m with
    | 0, 1 => some ⟨8, .B⟩
    | 1, 1 => some ⟨3, .B⟩
    | 2, 1 => some ⟨10, .B⟩
    | 3, 1 => some ⟨5, .B⟩
    | 4, 1 => some ⟨12, .B⟩
    | 5, 1 => some ⟨7, .B⟩
    | 6, 1 => some ⟨2, .B⟩
    | 7, 1 => some ⟨9, .B⟩
    | 8, 1 => some ⟨4, .B⟩
    | 9, 1 => some ⟨11, .B⟩
    | 10, 1 => some ⟨6, .B⟩
    | 11, 1 => some ⟨1, .B⟩
    | 0, 0 => some ⟨5, .A⟩
    | 1, 0 => some ⟨12, .A⟩
    | 2, 0 => some ⟨7, .A⟩
    | 3, 0 => some ⟨2, .A⟩
    | 4, 0 => some ⟨9, .A⟩
    | 5, 0 => some ⟨4, .A⟩
    | 6, 0 => some ⟨11, .A⟩
    | 7, 0 => some ⟨6, .A⟩
    | 8, 0 => some ⟨1, .A⟩
    | 9, 0 => some ⟨8, .A⟩
    | 10, 0 => some ⟨3, .A⟩
    | 11, 0 => some ⟨10, .A⟩
    | _, _ => none
  | _, _ => none

/-- Embedding of `getHarmonicCompatibility(camelot1, camelot2)` from
feature-estimator.js.
The JS function takes strings and parses them; we model the post-parse
structured keys (canonical strings are in bijection with them, and the
string equality test `camelot1 === camelot2` coincides with structural
equality on parsed keys).  The wheel distance is computed in `ℤ` exactly
as `Math.min(numberDiff, 12 - numberDiff)` is over JS numbers. -/
def getHarmonicCompatibility (camelot1 camelot2 : Option CamelotKey) : ℚ :=
  match camelot1, camelot2 with
  | some key1, some key2 =>
    if key1 = key2 then 1
    else
      let numberDiff : ℤ := |(key1.number : ℤ) - (key2.number : ℤ)|
      let wheelDistance : ℤ := min numberDiff (12 - numberDiff)
      if wheelDistance = 0 ∧ ¬ key1.letter = key2.letter then (9/10)
      else if wheelDistance = 1 ∧ key1.letter = key2.letter then (17/20)
      else if wheelDistance = 7 ∧ key1.letter = key2.letter then (7/10)
      else if wheelDistance = 1 ∧ ¬ key1.letter = key2.letter then (3/5)
      else if wheelDistance = 2 then (2/5)
      else if wheelDistance = 3 then (1/4)
      else (1/5)
  | _, _ => (1/2)

/-- The spec's piecewise table for harmonic compatibility (§4.2 / claim C1),
written from the spec's words: equality first, then *same number* +
different letter, then the wheel-distance buckets in the stated priority
order. -/
def specHarmonicCompatibility (key1 key2 : CamelotKey) : ℚ :=
  if key1 = key2 then 1
  else
    let numberDiff : ℤ := |(key1.number : ℤ) - (key2.number : ℤ)|
    let wheelDistance : ℤ := min numberDiff (12 - numberDiff)
    if key1.number = key2.number ∧ ¬ key1.letter = key2.letter then (9/10)
    else if wheelDistance = 1 ∧ key1.letter = key2.letter then (17/20)
    else if wheelDistance = 7 ∧ key1.letter = key2.letter then (7/10)
    else if wheelDistance = 1 ∧ ¬ key1.letter = key2.letter then (3/5)
    else if wheelDistance = 2 then (2/5)
    else if wheelDistance = 3 then (1/4)
    else (1/5)

/-- BPM compatibility band from `BPM_BANDS` in harmonic-mixer.js. -/
inductive Band where
  | PERFECT
  | EASY
  | MODERATE
  | CHALLENGING
  | INCOMPATIBLE
deriving DecidableEq, Repr

/-- Result record of `analyzeBPM` in harmonic-mixer.js.  The recommendation
and band-label strings are pure display text and are omitted; `percentChange`
and `effectivePercentChange` are stored as exact rationals (the JS code
formats them with `toFixed(1)` for display). -/
structure BpmAnalysis where
  compatible : Bool
  band : Option Band
  difference : Option ℚ
  effectiveDifference : Option ℚ
  percentChange : Option ℚ
  effectivePercentChange : Option ℚ
  isHalfTime : Bool
  isDoubleTime : Bool
deriving DecidableEq, Repr

/-- Record returned by `analyzeBPM` when either BPM is missing (JS object
with `compatible: false` and `null`/absent fields). -/
def bpmUnavailable : BpmAnalysis :=
  { compatible := false
    band := none
    difference := none
    effectiveDifference := none
    percentChange := none
    effectivePercentChange := none
    isHalfTime := false
    isDoubleTime := false }

/-- Embedding of `analyzeBPM(bpm1, bpm2)` from harmonic-mixer.js.
`BPM_BANDS` thresholds: PERFECT 3, EASY 6, MODERATE 12, CHALLENGING 20. -/
def analyzeBPM (bpm1 bpm2 : Option ℚ) : BpmAnalysis :=
  match bpm1, bpm2 with
  | some b1, some b2 =>
    if b1 = 0 ∨ b2 = 0 then bpmUnavailable
    else
      let diff := |b1 - b2|
      let percentChange := (b2 - b1) / b1 * 100
      let halfTimeDiff := |b1 - b2 * 2|
      let doubleTimeDiff := |b1 * 2 - b2|
      let isHalfTime := decide (halfTimeDiff < diff)
      let isDoubleTime := decide (doubleTimeDiff < diff)
      let sub : ℚ × ℚ :=
        if isHalfTime && decide (halfTimeDiff ≤ 12) then
          (halfTimeDiff, (b2 * 2 - b1) / b1 * 100)
        else if isDoubleTime && decide (doubleTimeDiff ≤ 12) then
          (doubleTimeDiff, (b2 - b1 * 2) / (b1 * 2) * 100)
        else (diff, percentChange)
      let band : Band :=
        if sub.1 ≤ 3 then .PERFECT
        else if sub.1 ≤ 6 then .EASY
        else if sub.1 ≤ 12 then .MODERATE
        else if sub.1 ≤ 20 then .CHALLENGING
        else .INCOMPATIBLE
      { compatible := decide (band ≠ .INCOMPATIBLE)
        band := some band
        difference := some diff
        effectiveDifference := some sub.1
        percentChange := some percentChange
        effectivePercentChange := some sub.2
        isHalfTime := isHalfTime
        isDoubleTime := isDoubleTime }
  | _, _ => bpmUnavailable

/-- Band classification ladder exactly as the spec states it (claim C2):
effective difference ≤ 3 PERFECT, ≤ 6 EASY, ≤ 12 MODERATE, ≤ 20 CHALLENGING,
else INCOMPATIBLE. -/
def specBandOf (effectiveDiff : ℚ) : Band :=
  if effectiveDiff ≤ 3 then .PERFECT
  else if effectiveDiff ≤ 6 then .EASY
  else if effectiveDiff ≤ 12 then .MODERATE
  else if effectiveDiff ≤ 20 then .CHALLENGING
  else .INCOMPATIBLE

/-- Result record of `analyzeHarmonic` in harmonic-mixer.js (relationship and
recommendation display strings omitted). -/
structure HarmonicAnalysis where
  compatible : Bool
  compatibility : ℚ
  source : Option CamelotKey
  target : Option CamelotKey
deriving DecidableEq, Repr

/-- Embedding of `analyzeHarmonic(key1, mode1, key2, mode2)` from
harmonic-mixer.js: converts both (key, mode) pairs through `toCamelot` and
scores them with `getHarmonicCompatibility`; if either Camelot key is null
the result is the `compatible: false, compatibility: 0.5` record. -/
def analyzeHarmonic (key1 mode1 key2 mode2 : Option ℕ) : HarmonicAnalysis :=
  let camelot1 := toCamelot key1 mode1
  let camelot2 := toCamelot key2 mode2
  let compatibility := getHarmonicCompatibility camelot1 camelot2
  match camelot1, camelot2 with
  | some c1, some c2 =>
    { compatible := decide (compatibility ≥ 3/5)
      compatibility := compatibility
      source := some c1
      target := some c2 }
  | _, _ =>
    { compatible := false
      compatibility := 1/2
      source := camelot1
      target := camelot2 }

/-- Direction tag of `calculateEnergyChange` in harmonic-mixer.js. -/
inductive EnergyDirection where
  | up
  | down
  | stable
  | unknown
deriving DecidableEq, Repr

/-- Result record of `calculateEnergyChange` (the JS code formats `change`
with `toFixed(2)` and `percent` with `toFixed(1)`; we keep the exact
rationals). -/
structure EnergyChange where
  change : ℚ
  percent : ℚ
  direction : EnergyDirection
  acceptable : Bool
deriving DecidableEq, Repr

/-- Embedding of `calculateEnergyChange(sourceEnergy, targetEnergy)` from
harmonic-mixer.js.  Missing inputs (the JS code tests `=== null` /
`=== undefined`, so `0` is a valid energy) yield the neutral
`{change: 0, percent: 0, direction: unknown, acceptable: true}` record. -/
def calculateEnergyChange (sourceEnergy targetEnergy : Option ℚ) : EnergyChange :=
  match sourceEnergy, targetEnergy with
  | some e1, some e2 =>
    let change := e2 - e1
    { change := change
      percent := change / e1 * 100
      direction :=
        if change > 1/20 then .up
        else if change < -(1/20) then .down
        else .stable
      acceptable := decide (|change| ≤ 3/10) }
  | _, _ => { change := 0, percent := 0, direction := .unknown, acceptable := true }

/-- Transition quality levels (`TRANSITION_QUALITY` in harmonic-mixer.js). -/
inductive Quality where
  | Perfect
  | Acceptable
  | Risky
deriving DecidableEq, Repr

/-- Class of a transition tip: produced by the BPM rules or by the harmonic
rules of `generateTransitionTips`. -/
inductive TipClass where
  | bpm
  | harmonic
deriving DecidableEq, Repr

/-- Tips pushed by `generateTransitionTips` in harmonic-mixer.js, one
constructor per `tips.push(...)` site (the exact tip wording is display text
and not contractually fixed; the EASY tip carries the pitch adjustment that
the JS string interpolates). -/
inductive Tip where
  | bpmLocked
  | bpmAdjustPitch (adjustment : ℚ)
  | bpmKeyLock
  | bpmHalfDouble
  | harmonicLongBlend
  | harmonicPhraseMix
  | harmonicFilterOut
  | harmonicQuickCut
deriving DecidableEq, Repr

/-- Classification of each tip constructor by the rule block that pushes it. -/
def tipClass : Tip → TipClass
  | .bpmLocked => .bpm
  | .bpmAdjustPitch _ => .bpm
  | .bpmKeyLock => .bpm
  | .bpmHalfDouble => .bpm
  | .harmonicLongBlend => .harmonic
  | .harmonicPhraseMix => .harmonic
  | .harmonicFilterOut => .harmonic
  | .harmonicQuickCut => .harmonic

/-- Embedding of `generateTransitionTips(bpmAnalysis, harmonicAnalysis)` from
harmonic-mixer.js.  The BPM block pushes at most one tip (none when the band
is CHALLENGING or INCOMPATIBLE or null without a half/double-time flag); the
harmonic block always pushes exactly one. -/
def generateTransitionTips (bpmAnalysis : BpmAnalysis)
    (harmonicAnalysis : HarmonicAnalysis) : List Tip :=
  (if bpmAnalysis.band = some .PERFECT then [Tip.bpmLocked]
   else if bpmAnalysis.band = some .EASY then
     [Tip.bpmAdjustPitch (bpmAnalysis.effectivePercentChange.getD 0)]
   else if bpmAnalysis.band = some .MODERATE then [Tip.bpmKeyLock]
   else if bpmAnalysis.isHalfTime || bpmAnalysis.isDoubleTime then
     [Tip.bpmHalfDouble]
   else []) ++
  [if harmonicAnalysis.compatibility ≥ 9/10 then Tip.harmonicLongBlend
   else if harmonicAnalysis.compatibility ≥ 7/10 then Tip.harmonicPhraseMix
   else if harmonicAnalysis.compatibility ≥ 2/5 then Tip.harmonicFilterOut
   else Tip.harmonicQuickCut]

/-- Result record of `analyzeTransition` in harmonic-mixer.js (the rounded
display copies of the source/target tempos are omitted). -/
structure TransitionAnalysis where
  quality : Quality
  bpmAnalysis : BpmAnalysis
  harmonic : HarmonicAnalysis
  energyChange : EnergyChange
  tips : List Tip
  overallScore : ℚ
deriving DecidableEq, Repr

/-- AudioFeatures record as consumed by the analysis/ranking engine
(`tempo`, `key`, `mode`, `energy`, `danceability`, `valence`); every field
may be missing. -/
structure AudioFeatures where
  tempo : Option ℚ
  key : Option ℕ
  mode : Option ℕ
  energy : Option ℚ
  danceability : Option ℚ
  valence : Option ℚ
deriving DecidableEq, Repr

/-- Embedding of `analyzeTransition(sourceTrack, targetTrack)` from
harmonic-mixer.js, taken directly on the two AudioFeatures records (the JS
wrapper `sourceTrack.audioFeatures || sourceTrack` only unwraps the record). -/
def analyzeTransition (src tgt : AudioFeatures) : TransitionAnalysis :=
  let bpmAnalysis := analyzeBPM src.tempo tgt.tempo
  let harmonicAnalysis := analyzeHarmonic src.key src.mode tgt.key tgt.mode
  let quality : Quality :=
    if bpmAnalysis.band = some .PERFECT ∧ harmonicAnalysis.compatibility ≥ 17/20 then
      .Perfect
    else if (bpmAnalysis.band = some .EASY ∨ bpmAnalysis.band = some .PERFECT) ∧
        harmonicAnalysis.compatibility ≥ 3/5 then
      .Acceptable
    else if bpmAnalysis.band = some .MODERATE ∧ harmonicAnalysis.compatibility ≥ 7/10 then
      .Acceptable
    else .Risky
  let energyChange := calculateEnergyChange src.energy tgt.energy
  { quality := quality
    bpmAnalysis := bpmAnalysis
    harmonic := harmonicAnalysis
    energyChange := energyChange
    tips := generateTransitionTips bpmAnalysis harmonicAnalysis
    overallScore :=
      (if bpmAnalysis.compatible then 2/5 else 0) +
      harmonicAnalysis.compatibility * (2/5) +
      (if energyChange.acceptable then 1/5 else 0) }

/-- Quality classification exactly as the spec states it (claim C3):
PERFECT band + compatibility ≥ 0.85 is Perfect; EASY-or-PERFECT band with
compatibility ≥ 0.6, or MODERATE band with compatibility ≥ 0.7, is
Acceptable; everything else is Risky. -/
def specQualityOf (band : Option Band) (compatibility : ℚ) : Quality :=
  if band = some .PERFECT ∧ compatibility ≥ 17/20 then .Perfect
  else if (band = some .EASY ∨ band = some .PERFECT) ∧ compatibility ≥ 3/5 then .Acceptable
  else if band = some .MODERATE ∧ compatibility ≥ 7/10 then .Acceptable
  else .Risky

/-- Embedding of `scoreBPM(bpm1, bpm2)` from feature-estimator.js
(`AutoDJEngine`).  `THRESHOLDS`: BPM_PERFECT_RANGE 2, BPM_ACCEPTABLE_RANGE 8,
BPM_MAX_RANGE 20.  Note the half/double-time difference is merged with a
plain `Math.min`, with no MODERATE-band gate. -/
def scoreBPM (bpm1 bpm2 : Option ℚ) : ℚ :=
  match bpm1, bpm2 with
  | some b1, some b2 =>
    if b1 = 0 ∨ b2 = 0 then 1/2
    else
      let directDiff := |b1 - b2|
      let halfTimeDiff := min |b1 - b2 * 2| |b1 * 2 - b2|
      let diff := min directDiff halfTimeDiff
      if diff ≤ 2 then 1
      else if diff ≤ 8 then
        let t := (diff - 2) / (8 - 2)
        19/20 - t * (3/20)
      else if diff ≤ 20 then
        let t := (diff - 8) / (20 - 8)
        4/5 - t * (1/2)
      else max (1/10) (3/10 - (diff - 20) * (1/100))
  | _, _ => 1/2

/-- The continuous BPM-score ladder as the spec words it (§4.5): ≤ 2 gives
1.0, ≤ 8 interpolates linearly from 0.95 to 0.8, ≤ 20 interpolates linearly
from 0.8 to 0.3, beyond gives `max(0.1, 0.3 - 0.01*(diff-20))`. -/
def specBpmLadder (diff : ℚ) : ℚ :=
  if diff ≤ 2 then 1
  else if diff ≤ 8 then 19/20 + (4/5 - 19/20) * ((diff - 2) / (8 - 2))
  else if diff ≤ 20 then 4/5 + (3/10 - 4/5) * ((diff - 8) / (20 - 8))
  else max (1/10) (3/10 - (1/100) * (diff - 20))

/-- BPM score as claim C5 states it: the effective difference is obtained by
the *analysis-path* substitution of §4.3 (half/double-time difference is
substituted only when it improves on the direct difference *and* is within
the MODERATE band threshold 12), then fed through the spec ladder; missing
data gives 0.5. -/
def claimGatedScoreBPM (bpm1 bpm2 : Option ℚ) : ℚ :=
  match bpm1, bpm2 with
  | some b1, some b2 =>
    if b1 = 0 ∨ b2 = 0 then 1/2
    else
      let directDiff := |b1 - b2|
      let halfTimeDiff := |b1 - b2 * 2|
      let doubleTimeDiff := |b1 * 2 - b2|
      let effectiveDiff :=
        if halfTimeDiff < directDiff ∧ halfTimeDiff ≤ 12 then halfTimeDiff
        else if doubleTimeDiff < directDiff ∧ doubleTimeDiff ≤ 12 then doubleTimeDiff
        else directDiff
      specBpmLadder effectiveDiff
  | _, _ => 1/2

/-- BPM score with the spec ladder over the *ungated* plain-minimum effective
difference, which is what the source's scoring path actually computes
(amended claim C5). -/
def specPlainMinScoreBPM (bpm1 bpm2 : Option ℚ) : ℚ :=
  match bpm1, bpm2 with
  | some b1, some b2 =>
    if b1 = 0 ∨ b2 = 0 then 1/2
    else specBpmLadder (min |b1 - b2| (min |b1 - b2 * 2| |b1 * 2 - b2|))
  | _, _ => 1/2

/-- Embedding of `scoreEnergy(energy1, energy2)` from feature-estimator.js;
the JS code tests `=== null` / `=== undefined` (so `0` is valid data). -/
def scoreEnergy (energy1 energy2 : Option ℚ) : ℚ :=
  match energy1, energy2 with
  | some e1, some e2 => 1 - |e1 - e2|
  | _, _ => 1/2

/-- Embedding of `scoreDanceability(dance1, dance2)` from
feature-estimator.js. -/
def scoreDanceability (dance1 dance2 : Option ℚ) : ℚ :=
  match dance1, dance2 with
  | some d1, some d2 => 1 - |d1 - d2|
  | _, _ => 1/2

/-- Embedding of `scoreKey(key1, mode1, key2, mode2)` from
feature-estimator.js. -/
def scoreKey (key1 mode1 key2 mode2 : Option ℕ) : ℚ :=
  getHarmonicCompatibility (toCamelot key1 mode1) (toCamelot key2 mode2)

/-- Embedding of `scoreProgression(currentEnergy, candidateEnergy)` from
feature-estimator.js; `energyDirection` is the `config.energyDirection`
module state (1 or -1) and `ENERGY_PROGRESSION_TARGET` is 0.05. -/
def scoreProgression (energyDirection : ℤ) (currentEnergy candidateEnergy : Option ℚ) : ℚ :=
  match currentEnergy, candidateEnergy with
  | some e1, some e2 =>
    let energyChange := e2 - e1
    let targetChange := (1/20 : ℚ) * energyDirection
    if |energyChange - targetChange| < 1/50 then 1
    else if energyDirection > 0 ∧ energyChange > 0 ∧ energyChange ≤ 3/20 then
      9/10 - |energyChange - targetChange| * 2
    else if energyDirection < 0 ∧ energyChange < 0 ∧ energyChange ≥ -(3/20) then
      9/10 - |energyChange - targetChange| * 2
    else if |energyChange| < 1/10 then 3/5
    else if (energyDirection > 0 ∧ energyChange < -(1/10)) ∨
        (energyDirection < 0 ∧ energyChange > 1/10) then 3/10
    else 1/2
  | _, _ => 1/2

/-- Scoring weights (`DEFAULT_WEIGHTS` shape) of the AutoDJ engine. -/
structure Weights where
  bpm : ℚ
  energy : ℚ
  danceability : ℚ
  key : ℚ
  progression : ℚ
deriving DecidableEq, Repr

/-- Default weights: bpm 0.30, energy 0.25, danceability 0.15, key 0.20,
progression 0.10. -/
def DEFAULT_WEIGHTS : Weights :=
  { bpm := 3/10, energy := 1/4, danceability := 3/20, key := 1/5, progression := 1/10 }

/-- Sum of the five weights (`Object.values(config.weights).reduce((a,b) => a+b, 0)`). -/
def weightsSum (w : Weights) : ℚ :=
  w.bpm + w.energy + w.danceability + w.key + w.progression

/-- Partial weight update as accepted by `setWeights(newWeights)`: any subset
of the five keys. -/
structure WeightsUpdate where
  bpm : Option ℚ := none
  energy : Option ℚ := none
  danceability : Option ℚ := none
  key : Option ℚ := none
  progression : Option ℚ := none
deriving DecidableEq, Repr

/-- Embedding of `setWeights(newWeights)` from feature-estimator.js: merge
the update over the current weights, then divide every weight by the sum of
the merged weights.  There is no guard against a zero sum: JS produces
`NaN`/`Infinity` weights there (division by zero); in this `ℚ` model
`x / 0 = 0`, so a zero-sum update likewise leaves the stored weights broken
(summing to 0, not 1). -/
def setWeights (current : Weights) (newWeights : WeightsUpdate) : Weights :=
  let merged : Weights :=
    { bpm := newWeights.bpm.getD current.bpm
      energy := newWeights.energy.getD current.energy
      danceability := newWeights.danceability.getD current.danceability
      key := newWeights.key.getD current.key
      progression := newWeights.progression.getD current.progression }
  let sum := weightsSum merged
  { bpm := merged.bpm / sum
    energy := merged.energy / sum
    danceability := merged.danceability / sum
    key := merged.key / sum
    progression := merged.progression / sum }

/-- Mutable engine configuration (`config` in feature-estimator.js), passed
explicitly: scoring weights and energy direction (the set history only
filters candidates in the caller and is not needed by these claims). -/
structure Config where
  weights : Weights
  energyDirection : ℤ
deriving DecidableEq, Repr

/-- Component scores of `calculateScore`. -/
structure Scores where
  bpm : ℚ
  energy : ℚ
  danceability : ℚ
  key : ℚ
  progression : ℚ
deriving DecidableEq, Repr

/-- Ranked-candidate entry produced by `rankCandidates` (the `explanation`
display string of `generateExplanation` is omitted; it is derived text with
no contractual wording). -/
structure RankedEntry where
  track : AudioFeatures
  scores : Scores
  weights : Weights
  total : ℚ
  camelotCurrent : Option CamelotKey
  camelotCandidate : Option CamelotKey
deriving DecidableEq, Repr

/-- Embedding of `calculateScore(currentTrack, candidateTrack)` from
feature-estimator.js, on the AudioFeatures records: five component scores,
weighted sum, normalized by the weight sum. -/
def calculateScore (cfg : Config) (curr cand : AudioFeatures) : RankedEntry :=
  let scores : Scores :=
    { bpm := scoreBPM curr.tempo cand.tempo
      energy := scoreEnergy curr.energy cand.energy
      danceability := scoreDanceability curr.danceability cand.danceability
      key := scoreKey curr.key curr.mode cand.key cand.mode
      progression := scoreProgression cfg.energyDirection curr.energy cand.energy }
  let total := scores.bpm * cfg.weights.bpm + scores.energy * cfg.weights.energy +
    scores.danceability * cfg.weights.danceability + scores.key * cfg.weights.key +
    scores.progression * cfg.weights.progression
  { track := cand
    scores := scores
    weights := cfg.weights
    total := total / weightsSum cfg.weights
    camelotCurrent := toCamelot curr.key curr.mode
    camelotCandidate := toCamelot cand.key cand.mode }

/-- Descending-total order used by the `ranked.sort((a, b) => b.total - a.total)`
comparator: `a` may come before `b` iff `b.total ≤ a.total`. -/
def rankedGE (a b : RankedEntry) : Prop := b.total ≤ a.total

instance : DecidableRel rankedGE := fun a b => inferInstanceAs (Decidable (b.total ≤ a.total))

instance : IsTotal RankedEntry rankedGE := ⟨fun a b => le_total b.total a.total⟩

instance : IsTrans RankedEntry rankedGE := ⟨fun _ _ _ hab hbc => le_trans hbc hab⟩

/-- Embedding of `rankCandidates(currentTrack, candidates)` from
feature-estimator.js: score every candidate, then sort descending by `total`.
`Array.prototype.sort` is a stable sort (ECMAScript 2019+), and a stable
sort's output is uniquely determined by the comparator preorder, so it is
modelled by the stable `List.insertionSort`. -/
def rankCandidates (cfg : Config) (currentTrack : AudioFeatures)
    (candidates : List AudioFeatures) : List RankedEntry :=
  List.insertionSort rankedGE (candidates.map (calculateScore cfg currentTrack))

/-- Wrap of an integer to a signed 32-bit value, as JS bitwise operators do. -/
def int32 (x : ℤ) : ℤ := (x + 2^31).emod (2^32) - 2^31

/-- One character step of the seed hash in `createSeededRandom`:
`hash = ((hash << 5) - hash) + charCode; hash = hash & hash`. -/
def hashStep (hash : ℤ) (charCode : ℕ) : ℤ :=
  int32 (int32 (hash * 32) - hash + charCode)

/-- Seed hash of `createSeededRandom(seed)` in feature-estimator.js, folded
over the seed string (`charCodeAt` equals the code point for the ASCII ids
used as seeds). -/
def createSeededRandomHash (seed : String) : ℤ :=
  seed.toList.foldl (fun h c => hashStep h c.toNat) 0

/-- One draw of the seeded generator:
`hash = (hash * 1103515245 + 12345) & 0x7fffffff; return hash / 0x7fffffff`.
Masking with `0x7fffffff` is reduction mod `2^31`.  JS evaluates the
multiplication in double precision, which can round once `|hash| ≥ 2^53 /
1103515245`; we model the recurrence exactly over `ℤ` (the spec itself asks
for an integer-overflow-safe recurrence).  Every claim settled against this
model depends only on the draws lying in `[0, 1]`, which holds in either
reading. -/
def nextRand (hash : ℤ) : ℤ × ℚ :=
  let h := (hash * 1103515245 + 12345).emod (2^31)
  (h, (h : ℚ) / (2^31 - 1))

/-- JS `String.prototype.toLowerCase` on the ASCII metadata text, modelled
character-wise (kernel-computable, unlike the built-in UTF-8 walker). -/
def jsToLower (s : String) : String := String.mk (s.toList.map Char.toLower)

/-- Substring test on char lists, modelling `String.prototype.includes`. -/
def hasSubList (pat : List Char) : List Char → Bool
  | [] => pat.isEmpty
  | c :: cs => List.isPrefixOf pat (c :: cs) || hasSubList pat cs

/-- JS `s.includes(pat)`. -/
def strIncludes (s pat : String) : Bool := hasSubList pat.toList s.toList

/-- The `GENRE_BPM_HINTS` table of feature-estimator.js, in source (object
insertion) order; the JS `for...of Object.entries` loop takes the first
matching keyword. -/
def GENRE_BPM_HINTS : List (String × ℚ × ℚ) :=
  [("techno", 125, 150), ("house", 118, 130), ("trance", 130, 145),
   ("drum and bass", 160, 180), ("dnb", 160, 180), ("dubstep", 135, 145),
   ("edm", 125, 135), ("electronic", 120, 135),
   ("hip hop", 80, 115), ("hip-hop", 80, 115), ("rap", 80, 110),
   ("trap", 130, 170), ("r&b", 60, 90),
   ("pop", 100, 130), ("rock", 100, 140), ("indie", 100, 130),
   ("punk", 140, 180), ("metal", 100, 180),
   ("reggaeton", 85, 100), ("salsa", 150, 220), ("latin", 90, 130),
   ("disco", 115, 130), ("funk", 90, 115),
   ("ambient", 60, 100), ("chill", 80, 110), ("acoustic", 70, 120),
   ("jazz", 80, 160), ("classical", 60, 140)]

/-- First genre keyword contained in the search text wins; otherwise the
`DEFAULT_BPM` range [100, 140]. -/
def findGenreRange : List (String × ℚ × ℚ) → String → ℚ × ℚ
  | [], _ => (100, 140)
  | (genre, range) :: rest, searchText =>
    if strIncludes searchText genre then range else findGenreRange rest searchText

/-- Track metadata consumed by the feature estimator: identity plus the name
text, artist names, album name, duration and popularity that the heuristics
read. -/
structure Track where
  id : String
  name : String
  artistNames : List String
  albumName : String
  durationMs : Option ℚ := none
  popularity : Option ℚ := none
deriving DecidableEq, Repr

/-- JS `x || dflt` on an optional number: missing or `0` falls back. -/
def jsOrNum (x : Option ℚ) (dflt : ℚ) : ℚ :=
  match x with
  | none => dflt
  | some v => if v = 0 then dflt else v

/-- JS `Math.round`: round half toward positive infinity. -/
def jsRound (x : ℚ) : ℤ := ⌊x + 1/2⌋

/-- Embedding of `estimateBPM(track, random)` from feature-estimator.js;
takes and returns the generator state.  Returns the clamped integer BPM. -/
def estimateBPM (track : Track) (hash : ℤ) : ℤ × ℤ :=
  let name := jsToLower track.name
  let artistNames := String.intercalate " " (track.artistNames.map jsToLower)
  let albumName := jsToLower track.albumName
  let searchText := name ++ " " ++ artistNames ++ " " ++ albumName
  let bpmRange := findGenreRange GENRE_BPM_HINTS searchText
  let modifier : ℚ := if strIncludes name "remix" || strIncludes name "extended" then 5 else 0
  let acoustic := strIncludes name "acoustic" || strIncludes name "unplugged"
  let modifier := if acoustic then modifier - 15 else modifier
  let bpmRange := if acoustic then ((70 : ℚ), (110 : ℚ)) else bpmRange
  let (hash, modifier) :=
    if strIncludes name "live" then
      let (h, r) := nextRand hash
      (h, modifier + (r - 1/2) * 10)
    else (hash, modifier)
  let bpmRange := if strIncludes name "radio edit" then ((115 : ℚ), (130 : ℚ)) else bpmRange
  let (hash, r) := nextRand hash
  let baseBPM := bpmRange.1 + r * (bpmRange.2 - bpmRange.1)
  let estimatedBPM := jsRound (baseBPM + modifier)
  (max 60 (min 200 estimatedBPM), hash)

/-- Embedding of `estimateKey(track, random)` from feature-estimator.js:
key from a weighted pool (70% of draws from the five common keys C, G, D, A,
E), mode from sentiment keywords with a random default.  The JS expression
`commonKeys[Math.floor(random() * commonKeys.length)]` is modelled with
`List.getD`; the index is `< 5` except at the measure-zero edge `r = 1`. -/
def estimateKey (track : Track) (hash : ℤ) : (ℕ × ℕ) × ℤ :=
  let (hash, r1) := nextRand hash
  let (hash, r2) := nextRand hash
  let commonKeys : List ℕ := [0, 7, 2, 9, 4]
  let key : ℕ :=
    if r1 < 7/10 then commonKeys.getD (⌊r2 * 5⌋).toNat 0
    else (⌊r2 * 12⌋).toNat
  let (hash, r3) := nextRand hash
  let name := jsToLower track.name
  let modeHint := r3
  let modeHint :=
    if strIncludes name "sad" || strIncludes name "cry" || strIncludes name "dark" ||
        strIncludes name "pain" || strIncludes name "lost" || strIncludes name "minor" then
      (1/5 : ℚ)
    else modeHint
  let modeHint :=
    if strIncludes name "happy" || strIncludes name "love" || strIncludes name "sun" ||
        strIncludes name "bright" || strIncludes name "joy" || strIncludes name "major" then
      (4/5 : ℚ)
    else modeHint
  let mode : ℕ := if modeHint > 9/20 then 1 else 0
  ((key, mode), hash)

/-- Embedding of `estimateEnergy(track, random)` from feature-estimator.js. -/
def estimateEnergy (track : Track) (hash : ℤ) : ℚ × ℤ :=
  let name := jsToLower track.name
  let duration := jsOrNum track.durationMs 180000
  let popularity := jsOrNum track.popularity 50
  let (hash, r) := nextRand hash
  let energy := 1/2 + (r - 1/2) * (2/5)
  let energy := energy + (popularity - 50) * (1/500)
  let energy := if duration < 120000 then energy + 3/20 else energy
  let energy := if duration > 360000 then energy - 1/10 else energy
  let energy := if strIncludes name "remix" || strIncludes name "club" then energy + 3/20 else energy
  let energy := if strIncludes name "acoustic" || strIncludes name "ballad" then energy - 1/5 else energy
  let energy := if strIncludes name "chill" || strIncludes name "relax" then energy - 1/4 else energy
  let energy := if strIncludes name "party" || strIncludes name "dance" then energy + 1/5 else energy
  let energy := if strIncludes name "rage" || strIncludes name "hard" then energy + 1/4 else energy
  (max (1/10) (min (19/20) energy), hash)

/-- Embedding of `estimateDanceability(track, random, estimatedBPM)` from
feature-estimator.js. -/
def estimateDanceability (track : Track) (hash : ℤ) (estimatedBPM : ℤ) : ℚ × ℤ :=
  let name := jsToLower track.name
  let popularity := jsOrNum track.popularity 50
  let danceability := 2/5 + popularity / 100 * (3/10)
  let bpmOptimality := 1 - |(estimatedBPM : ℚ) - 122| / 60
  let danceability := danceability + bpmOptimality * (1/5)
  let danceability :=
    if strIncludes name "dance" || strIncludes name "club" || strIncludes name "disco" then
      danceability + 1/5
    else danceability
  let danceability :=
    if strIncludes name "ballad" || strIncludes name "slow" then danceability - 1/5
    else danceability
  let danceability :=
    if strIncludes name "acoustic" || strIncludes name "classical" then danceability - 3/20
    else danceability
  let (hash, r) := nextRand hash
  let danceability := danceability + (r - 1/2) * (1/5)
  (max (1/10) (min (19/20) danceability), hash)

/-- Embedding of `estimateValence(track, random, mode)` from
feature-estimator.js. -/
def estimateValence (track : Track) (hash : ℤ) (mode : ℕ) : ℚ × ℤ :=
  let name := jsToLower track.name
  let valence : ℚ := if mode = 1 then 11/20 else 2/5
  let positiveWords := ["happy", "love", "sun", "joy", "dance", "party", "celebrate", "beautiful"]
  let negativeWords := ["sad", "cry", "dark", "pain", "lost", "alone", "broken", "hurt"]
  let valence := positiveWords.foldl
    (fun acc w => if strIncludes name w then acc + 1/10 else acc) valence
  let valence := negativeWords.foldl
    (fun acc w => if strIncludes name w then acc - 1/10 else acc) valence
  let (hash, r) := nextRand hash
  let valence := valence + (r - 1/2) * (3/10)
  (max (1/10) (min (9/10) valence), hash)

/-- Estimated audio-features record returned by `estimateFeatures`
(`_estimated` provenance flag included; the `_confidence` display string is
constant `'low'` and omitted). -/
structure EstimatedFeatures where
  tempo : ℤ
  key : ℕ
  mode : ℕ
  energy : ℚ
  danceability : ℚ
  valence : ℚ
  loudness : ℚ
  speechiness : ℚ
  acousticness : ℚ
  instrumentalness : ℚ
  liveness : ℚ
  timeSignature : ℕ
  id : String
  durationMs : Option ℚ
  estimated : Bool
deriving DecidableEq, Repr

/-- Embedding of `estimateFeatures(track)` from feature-estimator.js: `null`
when the track has no identity (`!track.id`, i.e. an empty id string);
otherwise a record produced by the seeded estimators, consuming generator
draws in source order (key, tempo, energy, danceability, valence, then the
five auxiliary features). -/
def estimateFeatures (track : Track) : Option EstimatedFeatures :=
  if track.id = "" then none
  else
    let hash := createSeededRandomHash track.id
    let ((key, mode), hash) := estimateKey track hash
    let (tempo, hash) := estimateBPM track hash
    let (energy, hash) := estimateEnergy track hash
    let (danceability, hash) := estimateDanceability track hash tempo
    let (valence, hash) := estimateValence track hash mode
    let (hash, r1) := nextRand hash
    let (hash, r2) := nextRand hash
    let (hash, r3) := nextRand hash
    let (hash, r4) := nextRand hash
    let (_, r5) := nextRand hash
    some
      { tempo := tempo
        key := key
        mode := mode
        energy := energy
        danceability := danceability
        valence := valence
        loudness := -8 + (r1 - 1/2) * 10
        speechiness := 1/20 + r2 * (3/20)
        acousticness := r3 * (2/5)
        instrumentalness := r4 * (3/10)
        liveness := 1/10 + r5 * (1/5)
        timeSignature := 4
        id := track.id
        durationMs := track.durationMs
        estimated := true }

/-- On the actual wheel (numbers 1..12), a wheel distance of zero is the same
as having equal Camelot numbers. -/
theorem wheelDistance_eq_zero_iff (n1 n2 : ℕ) (h1 : 1 ≤ n1) (h2 : n1 ≤ 12)
    (h3 : 1 ≤ n2) (h4 : n2 ≤ 12) :
    (min |(n1 : ℤ) - (n2 : ℤ)| (12 - |(n1 : ℤ) - (n2 : ℤ)|) = 0) ↔ n1 = n2 := by
  rcases abs_choice ((n1 : ℤ) - (n2 : ℤ)) with h | h <;> rw [h] <;> omega

/-- C1: `getHarmonicCompatibility` agrees with the spec's piecewise table in
its stated priority order on every pair of (valid) Camelot keys; either input
null gives the neutral 0.5; and the relative major/minor example
`harmonicCompatibility("8B", "8A") = 0.9` holds. -/
theorem C1_harmonicCompatibility_matches_spec :
    (∀ key1 key2 : CamelotKey,
        1 ≤ key1.number → key1.number ≤ 12 → 1 ≤ key2.number → key2.number ≤ 12 →
        getHarmonicCompatibility (some key1) (some key2) =
          specHarmonicCompatibility key1 key2) ∧
    (∀ c : Option CamelotKey,
        getHarmonicCompatibility none c = 1/2 ∧ getHarmonicCompatibility c none = 1/2) ∧
    getHarmonicCompatibility (some ⟨8, .B⟩) (some ⟨8, .A⟩) = 9/10 := by
  refine ⟨?_, ?_, ?_⟩
  · rintro ⟨n1, l1⟩ ⟨n2, l2⟩ h1 h2 h3 h4
    simp only at h1 h2 h3 h4
    simp only [getHarmonicCompatibility, specHarmonicCompatibility,
      wheelDistance_eq_zero_iff n1 n2 h1 h2 h3 h4]
  · intro c
    cases c <;> exact ⟨rfl, rfl⟩
  · rfl

/-- Witness for C1 at a concrete valid pair (adjacent keys 8B and 9B). -/
theorem C1_witness :
    getHarmonicCompatibility (some ⟨8, .B⟩) (some ⟨9, .B⟩) =
      specHarmonicCompatibility ⟨8, .B⟩ ⟨9, .B⟩ :=
  C1_harmonicCompatibility_matches_spec.1 ⟨8, .B⟩ ⟨9, .B⟩
    (by decide) (by decide) (by decide) (by decide)

/-- C2: for positive BPMs, `analyzeBPM` classifies its effective difference
through the spec ladder (≤3 PERFECT, ≤6 EASY, ≤12 MODERATE, ≤20 CHALLENGING,
else INCOMPATIBLE) and `compatible` holds exactly off the INCOMPATIBLE band;
a missing BPM gives `compatible = false`; and the three spec examples hold:
(128, 128) is PERFECT and compatible, (128, 64) is detected half-time with
effective difference 0 and band PERFECT, (120, 150) has difference 30, band
INCOMPATIBLE, not compatible. -/
theorem C2_analyzeBPM_band_classification :
    (∀ b1 b2 : ℚ, 0 < b1 → 0 < b2 →
        ∃ e : ℚ, (analyzeBPM (some b1) (some b2)).effectiveDifference = some e ∧
          (analyzeBPM (some b1) (some b2)).band = some (specBandOf e) ∧
          ((analyzeBPM (some b1) (some b2)).compatible = true ↔
            specBandOf e ≠ .INCOMPATIBLE)) ∧
    (∀ b : Option ℚ,
        (analyzeBPM none b).compatible = false ∧ (analyzeBPM b none).compatible = false) ∧
    ((analyzeBPM (some 128) (some 128)).band = some .PERFECT ∧
      (analyzeBPM (some 128) (some 128)).compatible = true) ∧
    ((analyzeBPM (some 128) (some 64)).isHalfTime = true ∧
      (analyzeBPM (some 128) (some 64)).effectiveDifference = some 0 ∧
      (analyzeBPM (some 128) (some 64)).band = some .PERFECT) ∧
    ((analyzeBPM (some 120) (some 150)).difference = some 30 ∧
      (analyzeBPM (some 120) (some 150)).band = some .INCOMPATIBLE ∧
      (analyzeBPM (some 120) (some 150)).compatible = false) := by
  refine ⟨?_, ?_, ?_, ?_, ?_⟩
  · intro b1 b2 h1 h2
    simp only [analyzeBPM]
    rw [if_neg (by push_neg; exact ⟨h1.ne', h2.ne'⟩)]
    exact ⟨_, rfl, rfl, by simp [specBandOf]⟩
  · intro b
    cases b <;> exact ⟨rfl, rfl⟩
  · exact ⟨by norm_num [analyzeBPM], by norm_num [analyzeBPM]; decide⟩
  · refine ⟨?_, ?_, ?_⟩ <;> norm_num [analyzeBPM]
  · refine ⟨?_, ?_, ?_⟩ <;> norm_num [analyzeBPM]

/-- Witness for C2 at the concrete positive pair (128, 128). -/
theorem C2_witness :
    ∃ e : ℚ, (analyzeBPM (some 128) (some 128)).effectiveDifference = some e ∧
      (analyzeBPM (some 128) (some 128)).band = some (specBandOf e) ∧
      ((analyzeBPM (some 128) (some 128)).compatible = true ↔
        specBandOf e ≠ .INCOMPATIBLE) :=
  C2_analyzeBPM_band_classification.1 128 128 (by norm_num) (by norm_num)

/-- C3: for every pair of AudioFeatures records, the transition quality is
exactly the spec's in-order classification applied to the BPM band and the
harmonic compatibility of the two records. -/
theorem C3_analyzeTransition_quality :
    ∀ src tgt : AudioFeatures,
      (analyzeTransition src tgt).quality =
        specQualityOf (analyzeBPM src.tempo tgt.tempo).band
          (analyzeHarmonic src.key src.mode tgt.key tgt.mode).compatibility := by
  intro src tgt
  rfl

/-- C10: `scoreBPM` is symmetric in its two BPM arguments. -/
theorem C10_scoreBPM_symm : ∀ a b : Option ℚ, scoreBPM a b = scoreBPM b a := by
  intro a b
  match a, b with
  | none, none => rfl
  | none, some y => rfl
  | some x, none => rfl
  | some x, some y =>
    simp only [scoreBPM]
    have hd : min |x - y| (min |x - y * 2| |x * 2 - y|) =
        min |y - x| (min |y - x * 2| |y * 2 - x|) := by
      rw [abs_sub_comm x y, show |x - y * 2| = |y * 2 - x| from abs_sub_comm _ _,
        show |x * 2 - y| = |y - x * 2| from abs_sub_comm _ _, min_comm |y * 2 - x| _]
    by_cases hx : x = 0 ∨ y = 0
    · rw [if_pos hx, if_pos (Or.symm hx)]
    · rw [if_neg hx, if_neg (fun h => hx (Or.symm h)), hd]

/-- C5 (amended): `scoreBPM` equals the spec's continuous ladder applied to
the *ungated* effective difference `min(directDiff, min(halfTimeDiff,
doubleTimeDiff))` — a plain minimum with no MODERATE-band gate. -/
theorem C5_scoreBPM_is_ungated_ladder :
    ∀ bpm1 bpm2 : Option ℚ, scoreBPM bpm1 bpm2 = specPlainMinScoreBPM bpm1 bpm2 := by
  intro bpm1 bpm2
  match bpm1, bpm2 with
  | none, none => rfl
  | none, some y => rfl
  | some x, none => rfl
  | some x, some y =>
    simp only [scoreBPM, specPlainMinScoreBPM, specBpmLadder]
    split_ifs
    · rfl
    · rfl
    · ring
    · ring
    · congr 1
      ring

/-- Counterexample to C5 as stated: at (100, 220) the double-time difference
20 beats the direct difference 120 but exceeds the MODERATE threshold 12, so
the gated analysis-path logic keeps 120 (score 0.1) while the code's plain
minimum takes 20 (score 0.3). -/
theorem C5_counterexample :
    scoreBPM (some 100) (some 220) = 3/10 ∧
    claimGatedScoreBPM (some 100) (some 220) = 1/10 ∧
    scoreBPM (some 100) (some 220) ≠ claimGatedScoreBPM (some 100) (some 220) := by
  refine ⟨?_, ?_, ?_⟩ <;>
    norm_num [scoreBPM, claimGatedScoreBPM, specBpmLadder]

/-- C9 (amended): the tips list always ends with exactly one harmonic tip,
and a BPM tip precedes it exactly when the BPM band is PERFECT, EASY or
MODERATE, or a half/double-time relation was flagged; for a CHALLENGING,
INCOMPATIBLE or null band with neither flag set, no BPM tip is produced. -/
theorem C9_amended_tips_shape :
    ∀ (b : BpmAnalysis) (harm : HarmonicAnalysis),
      (generateTransitionTips b harm).map tipClass =
        (if b.band = some .PERFECT ∨ b.band = some .EASY ∨ b.band = some .MODERATE ∨
            b.isHalfTime = true ∨ b.isDoubleTime = true
         then [TipClass.bpm] else []) ++ [TipClass.harmonic] := by
  intro b harm
  simp only [generateTransitionTips, List.map_append, apply_ite (List.map tipClass),
    List.map_cons, List.map_nil, tipClass]
  split_ifs <;> simp_all

/-- Counterexample to C9 as stated: for source tempo 100 and target tempo 115
(band CHALLENGING, no half/double-time flag, unknown keys) the tips list
contains only the harmonic tip — no BPM tip is present. -/
theorem C9_counterexample :
    ((analyzeTransition
        { tempo := some 100, key := none, mode := none, energy := none,
          danceability := none, valence := none }
        { tempo := some 115, key := none, mode := none, energy := none,
          danceability := none, valence := none }).tips).map tipClass =
      [TipClass.harmonic] := by
  have hb : analyzeBPM (some 100) (some 115) =
      { compatible := true, band := some .CHALLENGING, difference := some 15,
        effectiveDifference := some 15, percentChange := some 15,
        effectivePercentChange := some 15, isHalfTime := false,
        isDoubleTime := false } := by
    norm_num [analyzeBPM]
    decide
  have htips :
      ((analyzeTransition
          { tempo := some 100, key := none, mode := none, energy := none,
            danceability := none, valence := none }
          { tempo := some 115, key := none, mode := none, energy := none,
            danceability := none, valence := none }).tips) =
        generateTransitionTips (analyzeBPM (some 100) (some 115))
          (analyzeHarmonic none none none none) := rfl
  have hh : analyzeHarmonic none none none none =
      { compatible := false, compatibility := 1/2, source := none, target := none } := rfl
  rw [htips, hb, hh]
  norm_num [generateTransitionTips, tipClass]
  decide

/-- C8: every scoring and analysis function of the core is total in this
embedding (no exception path exists), and missing musical data degrades to
the neutral value: the five component scorers return 0.5 on a missing (or,
for BPM, falsy-zero) input, the BPM analyzer returns its
`compatible = false` unavailable record, and the energy-change computation
returns its neutral `unknown`/`acceptable` record. -/
theorem C8_missing_data_degrades_neutrally :
    (∀ o : Option ℚ, scoreBPM none o = 1/2 ∧ scoreBPM o none = 1/2) ∧
    (∀ b : ℚ, scoreBPM (some 0) (some b) = 1/2 ∧ scoreBPM (some b) (some 0) = 1/2) ∧
    (∀ o : Option ℚ, scoreEnergy none o = 1/2 ∧ scoreEnergy o none = 1/2) ∧
    (∀ o : Option ℚ, scoreDanceability none o = 1/2 ∧ scoreDanceability o none = 1/2) ∧
    (∀ m k2 m2 : Option ℕ, scoreKey none m k2 m2 = 1/2) ∧
    (∀ dir : ℤ, ∀ o : Option ℚ,
        scoreProgression dir none o = 1/2 ∧ scoreProgression dir o none = 1/2) ∧
    (∀ o : Option ℚ, analyzeBPM none o = bpmUnavailable ∧ analyzeBPM o none = bpmUnavailable) ∧
    (∀ o : Option ℚ,
        calculateEnergyChange none o =
          { change := 0, percent := 0, direction := .unknown, acceptable := true } ∧
        calculateEnergyChange o none =
          { change := 0, percent := 0, direction := .unknown, acceptable := true }) := by
  refine ⟨?_, ?_, ?_, ?_, ?_, ?_, ?_, ?_⟩
  · intro o; cases o <;> exact ⟨rfl, rfl⟩
  · intro b
    constructor <;> simp [scoreBPM]
  · intro o; cases o <;> exact ⟨rfl, rfl⟩
  · intro o; cases o <;> exact ⟨rfl, rfl⟩
  · intro m k2 m2
    have hnone : toCamelot none m = none := by cases m <;> rfl
    simp only [scoreKey, hnone]
    cases toCamelot k2 m2 <;> rfl
  · intro dir o; cases o <;> exact ⟨rfl, rfl⟩
  · intro o; cases o <;> exact ⟨rfl, rfl⟩
  · intro o; cases o <;> exact ⟨rfl, rfl⟩

/-- C6 / code bug: `setWeights` has no guard against a zero weight sum.
Setting all five weights to 0 divides by zero (JS: `NaN` weights; this `ℚ`
model: zero weights), leaving stored weights that sum to 0, not 1, while a
nonzero partial update (bpm := 0.5) does renormalize to sum exactly 1. -/
theorem C6_setWeights_zero_sum_unguarded :
    weightsSum (setWeights DEFAULT_WEIGHTS
      { bpm := some 0, energy := some 0, danceability := some 0,
        key := some 0, progression := some 0 }) = 0 ∧
    weightsSum (setWeights DEFAULT_WEIGHTS
      { bpm := some 0, energy := some 0, danceability := some 0,
        key := some 0, progression := some 0 }) ≠ 1 ∧
    weightsSum (setWeights DEFAULT_WEIGHTS { bpm := some (1/2) }) = 1 := by
  refine ⟨?_, ?_, ?_⟩ <;> norm_num [setWeights, weightsSum, DEFAULT_WEIGHTS]

/-- Inserting an entry never disturbs the subsequence of entries holding any
fixed total: skipped entries have strictly larger totals. -/
theorem filter_total_orderedInsert (c : ℚ) (x : RankedEntry)
    (l : List RankedEntry) :
    (List.orderedInsert rankedGE x l).filter (fun e => decide (e.total = c)) =
      if x.total = c then x :: l.filter (fun e => decide (e.total = c))
      else l.filter (fun e => decide (e.total = c)) := by
  induction l with
  | nil =>
    simp only [List.orderedInsert, List.filter]
    split_ifs <;> simp_all
  | cons y ys ih =>
    by_cases hr : rankedGE x y
    · simp only [List.orderedInsert, if_pos hr]
      by_cases hx : x.total = c <;> simp_all [List.filter_cons]
    · simp only [List.orderedInsert, if_neg hr]
      have hlt : x.total < y.total := not_le.mp hr
      by_cases hx : x.total = c
      · have hy : ¬ y.total = c := fun h => absurd (hx.trans h.symm) (ne_of_lt hlt)
        simp_all [List.filter_cons]
      · simp_all [List.filter_cons]

/-- The stable insertion sort preserves, for every total value, the
subsequence of entries holding that total. -/
theorem filter_total_insertionSort (c : ℚ) :
    ∀ l : List RankedEntry,
      (List.insertionSort rankedGE l).filter (fun e => decide (e.total = c)) =
        l.filter (fun e => decide (e.total = c)) := by
  intro l
  induction l with
  | nil => rfl
  | cons x xs ih =>
    simp only [List.insertionSort]
    rw [filter_total_orderedInsert c x (List.insertionSort rankedGE xs), ih]
    by_cases hx : x.total = c <;> simp_all [List.filter_cons]

/-- C4: `rankCandidates` returns a permutation of the scored candidates (so
its `track` fields are a permutation of the input candidates), sorted in
descending order of `total`, and stable: for every total value the entries
holding it appear in their original input order. -/
theorem C4_rankCandidates_sorted_stable_perm :
    ∀ (cfg : Config) (currentTrack : AudioFeatures) (candidates : List AudioFeatures),
      ((rankCandidates cfg currentTrack candidates).map RankedEntry.track).Perm candidates ∧
      (rankCandidates cfg currentTrack candidates).Perm
        (candidates.map (calculateScore cfg currentTrack)) ∧
      (rankCandidates cfg currentTrack candidates).Sorted rankedGE ∧
      ∀ c : ℚ,
        (rankCandidates cfg currentTrack candidates).filter (fun e => decide (e.total = c)) =
          (candidates.map (calculateScore cfg currentTrack)).filter
            (fun e => decide (e.total = c)) := by
  intro cfg currentTrack candidates
  refine ⟨?_, List.perm_insertionSort _ _, List.sorted_insertionSort _ _, ?_⟩
  · have h :=
      (List.perm_insertionSort rankedGE
        (candidates.map (calculateScore cfg currentTrack))).map RankedEntry.track
    have htrack :
        (candidates.map (calculateScore cfg currentTrack)).map RankedEntry.track =
          candidates := by
      rw [List.map_map]
      have hcomp : (RankedEntry.track ∘ calculateScore cfg currentTrack) = id := by
        funext x
        rfl
      rw [hcomp, List.map_id]
    rw [htrack] at h
    rw [rankCandidates]
    exact h
  · intro c
    exact filter_total_insertionSort c _

/-- C7 (amended): `estimateFeatures` is deterministic as a pure function of
the full track metadata — equal id, name, artist names, album name, duration
and popularity give identical output; in particular calling it twice on the
same track yields identical output.  (Identity alone is what seeds the
generator, but the heuristics also read the metadata text, so an identical
id with different metadata need not give identical output.) -/
theorem C7_amended_estimateFeatures_deterministic :
    ∀ t1 t2 : Track,
      t1.id = t2.id → t1.name = t2.name → t1.artistNames = t2.artistNames →
      t1.albumName = t2.albumName → t1.durationMs = t2.durationMs →
      t1.popularity = t2.popularity →
      estimateFeatures t1 = estimateFeatures t2 := by
  rintro ⟨i1, n1, a1, al1, d1, p1⟩ ⟨i2, n2, a2, al2, d2, p2⟩ h1 h2 h3 h4 h5 h6
  simp only at h1 h2 h3 h4 h5 h6
  subst h1
  subst h2
  subst h3
  subst h4
  subst h5
  subst h6
  rfl

/-- Witness for C7 at two concrete syntactically distinct but equal tracks. -/
theorem C7_witness :
    estimateFeatures ⟨"track1", "song", ["dj"], "album", some 180000, some 50⟩ =
      estimateFeatures ⟨"track1", "song", ["dj"], "album", some 180000, some (100 / 2)⟩ :=
  C7_amended_estimateFeatures_deterministic _ _ rfl rfl rfl rfl rfl (by norm_num)

/-- Counterexample to C7 as stated: two tracks sharing the id "t1" but named
"dnb" and "r&b" hit disjoint genre BPM ranges ([160, 180] vs [60, 90]), so
their estimated features differ (tempo 176 vs 85) despite the identical id. -/
theorem C7_counterexample :
    estimateFeatures ⟨"t1", "dnb", [], "", none, none⟩ ≠
      estimateFeatures ⟨"t1", "r&b", [], "", none, none⟩ := by
  have hr : (nextRand 625739008).2 = (1759793465 : ℚ) / (2 ^ 31 - 1) := by
    norm_num [nextRand]
  have h1 : (estimateFeatures ⟨"t1", "dnb", [], "", none, none⟩).map
      EstimatedFeatures.tempo = some 176 := by
    have hb : (estimateFeatures ⟨"t1", "dnb", [], "", none, none⟩).map
        EstimatedFeatures.tempo =
        some (max 60 (min 200 (jsRound (160 + (nextRand 625739008).2 * (180 - 160) + 0)))) := rfl
    rw [hb, hr]
    have hf : jsRound (160 + (1759793465 : ℚ) / (2 ^ 31 - 1) * (180 - 160) + 0) = 176 := by
      rw [jsRound, Int.floor_eq_iff]
      norm_num
    rw [hf]
    norm_num
  have h2 : (estimateFeatures ⟨"t1", "r&b", [], "", none, none⟩).map
      EstimatedFeatures.tempo = some 85 := by
    have hb : (estimateFeatures ⟨"t1", "r&b", [], "", none, none⟩).map
        EstimatedFeatures.tempo =
        some (max 60 (min 200 (jsRound (60 + (nextRand 625739008).2 * (90 - 60) + 0)))) := rfl
    rw [hb, hr]
    have hf : jsRound (60 + (1759793465 : ℚ) / (2 ^ 31 - 1) * (90 - 60) + 0) = 85 := by
      rw [jsRound, Int.floor_eq_iff]
      norm_num
    rw [hf]
    norm_num
  intro heq
  rw [heq, h2] at h1
  exact absurd h1 (by decide)
